import Mathlib

/-!
# QX11Info static accessors (src/x11support/qx11info_x11.cpp)

A shallow embedding of the static functions of `QX11Info` and the properties
of them that the specification states.

Modelling conventions.

* `int` values (screen numbers, DPI results) are integers `Int`; `qreal`
  values (logical DPI) are exact rationals `ℚ`. A conversion from `qreal` to
  `int` is modelled on all of `ℚ`; DPI values lie far inside the range of
  `int`, outside of which C++ leaves the conversion undefined.
* `unsigned long` is a natural number below `2 ^ 64`; `uint32_t(x)` is
  `x % 2 ^ 32`.
* Pointers to Qt objects are `Option`s (`none` is the null pointer); raw
  native handles (`Qt::HANDLE`, `Display *`, `xcb_connection_t *`) are natural
  numbers with `0` the null handle.
* A function that can dereference a null pointer or index a `QList` outside
  its bounds returns an `Option`; `none` is that fault.
-/

namespace QX11Info

/-! ## The environment the accessors read -/

/-- A `QScreen`, reduced to the two properties the accessors read. -/
structure QScreen where
  logicalDotsPerInchX : ℚ
  logicalDotsPerInchY : ℚ
  deriving DecidableEq

/-- A `QWindow`, reduced to its native window id. -/
structure QWindow where
  winId : Nat
  deriving DecidableEq

/-- The `QDesktopWidget`: its window handle (null when the widget has no
native window) and its primary screen number. -/
structure QDesktopWidget where
  windowHandle : Option QWindow
  primaryScreen : Int
  deriving DecidableEq

/-- The platform native interface: the two resource queries the accessors
make, each answering a raw pointer for a resource name. -/
structure QPlatformNativeInterface where
  nativeResourceForScreen : String → Option QScreen → Nat
  nativeResourceForWindow : String → Option QWindow → Nat

/-- The application object `qApp` points to, with what the accessors reach
through it: `platformNativeInterface()` and `QApplication::desktop()`. -/
structure QApplication where
  platformNativeInterface : QPlatformNativeInterface
  desktop : QDesktopWidget

/-- The global state the accessors query: `qApp`,
`QGuiApplication::primaryScreen()` and `QGuiApplication::screens()`. -/
structure Env where
  qApp : Option QApplication
  primaryScreen : Option QScreen
  screens : List QScreen

/-- One `QMetaObject::invokeMethod` call on the native interface with
arguments `(QWindow *, xcb_timestamp_t)`. -/
structure MethodCall where
  member : String
  window : Option QWindow
  timestamp : Nat
  deriving DecidableEq

/-- The environment together with the method invocations made so far. -/
structure State where
  env : Env
  invoked : List MethodCall

/-! ## Conversions and container access used by the accessors -/

/-- The implicit C++ conversion from `qreal` to `int`: the fractional part is
discarded (truncation toward zero). -/
def toInt (d : ℚ) : Int :=
  d.num.tdiv d.den

/-- Modelled from the spec: `qRound` is a Qt library function (qglobal.h), not
part of this repository. It rounds to the nearest integer: for a non-negative
argument, the only kind the properties below apply it to, it is
`int(d + 0.5)`; for a negative argument the model takes `int(d - 0.5)`. -/
def qRound (d : ℚ) : Int :=
  if 0 ≤ d then toInt (d + 1 / 2) else toInt (d - 1 / 2)

/-- The lookup `screens[i]` of a `QList` with an `int` index: defined exactly
for `0 ≤ i < size`; outside that range the access is out of bounds (`none`). -/
def QList.index {α : Type} (l : List α) (i : Int) : Option α :=
  if 0 ≤ i ∧ i < l.length then l[i.toNat]? else none

/-! ## The accessors -/

/-- The range check of `appDpiX`: `screen >= screens.size()`. -/
def appDpiX.rangeCheck (screens : List QScreen) (screen : Int) : Bool :=
  decide (screen ≥ (screens.length : Int))

/-- The range check of `appDpiY`: `screen > screens.size()`. -/
def appDpiY.rangeCheck (screens : List QScreen) (screen : Int) : Bool :=
  decide (screen > (screens.length : Int))

/-- The function `QX11Info::appDpiX(int screen)`. -/
def appDpiX (env : Env) (screen : Int) : Option Int :=
  if screen = -1 then
    match env.primaryScreen with
    | none => some 75
    | some scr => some (qRound scr.logicalDotsPerInchX)
  else
    let screens := env.screens
    if appDpiX.rangeCheck screens screen then some 0
    else (QList.index screens screen).map fun s => toInt s.logicalDotsPerInchX

/-- The function `QX11Info::appDpiY(int screen)`. -/
def appDpiY (env : Env) (screen : Int) : Option Int :=
  if screen = -1 then
    match env.primaryScreen with
    | none => some 75
    | some scr => some (qRound scr.logicalDotsPerInchY)
  else
    let screens := env.screens
    if appDpiY.rangeCheck screens screen then some 0
    else (QList.index screens screen).map fun s => toInt s.logicalDotsPerInchY

/-- The function `QX11Info::appRootWindow(int screen)`, with the branch the
preprocessor keeps (the per-screen branch is disabled). `none` is the
dereference of a null window handle. -/
def appRootWindow (env : Env) (_screen : Int) : Option Nat :=
  match env.qApp with
  | none => some 0
  | some app =>
    let desktop := app.desktop
    let window := desktop.windowHandle
    window.map fun w => w.winId

/-- The function `QX11Info::appScreen()`. -/
def appScreen (env : Env) : Int :=
  match env.qApp with
  | none => 0
  | some app =>
    let desktop := app.desktop
    desktop.primaryScreen

/-- The function `QX11Info::appTime()`. -/
def appTime (_s : State) : Nat :=
  0

/-- The function `QX11Info::appUserTime()`. -/
def appUserTime (_s : State) : Nat :=
  0

/-- The function `QX11Info::setAppTime(unsigned long time)`. -/
def setAppTime (s : State) (_time : Nat) : State :=
  s

/-- The function `QX11Info::setAppUserTime(unsigned long time)`: the method
invocation is appended to the state's record of invocations. -/
def setAppUserTime (s : State) (time : Nat) : State :=
  match s.env.qApp with
  | none => s
  | some app =>
    let desktop := app.desktop
    let window := desktop.windowHandle
    let timestamp := time % 2 ^ 32
    ⟨s.env, s.invoked ++ [⟨"updateNetWmUserTime", window, timestamp⟩]⟩

/-- The function `QX11Info::display()`. -/
def display (env : Env) : Nat :=
  match env.qApp with
  | none => 0
  | some app =>
    let native := app.platformNativeInterface
    native.nativeResourceForScreen "display" env.primaryScreen

/-- The function `QX11Info::connection()`. -/
def connection (env : Env) : Nat :=
  match env.qApp with
  | none => 0
  | some app =>
    let native := app.platformNativeInterface
    native.nativeResourceForWindow "connection" none

/-- A call of one of the two timestamp setters. -/
inductive SetterCall where
  | setAppTime (time : Nat)
  | setAppUserTime (time : Nat)

/-- Run one setter call. -/
def SetterCall.run (s : State) : SetterCall → State
  | .setAppTime t => QX11Info.setAppTime s t
  | .setAppUserTime t => QX11Info.setAppUserTime s t

/-- Run a finite sequence of setter calls, first to last. -/
def runCalls (s : State) (calls : List SetterCall) : State :=
  calls.foldl SetterCall.run s

/-! ## Concrete environments -/

/-- No application instance: null `qApp`, no primary screen, no screens. -/
def noAppEnv : Env :=
  ⟨none, none, []⟩

/-- A screen whose logical DPI is 96.5 in both directions. -/
def halfScreen : QScreen :=
  ⟨193 / 2, 193 / 2⟩

/-- A native interface answering address 4096 for every resource. -/
def sampleNative : QPlatformNativeInterface :=
  ⟨fun _ _ => 4096, fun _ _ => 4096⟩

/-- The desktop window of the sample application, with window id 610. -/
def sampleWindow : QWindow :=
  ⟨610⟩

/-- An application whose desktop widget has the native window `sampleWindow`
and reports primary screen 0. -/
def sampleApp : QApplication :=
  ⟨sampleNative, ⟨some sampleWindow, 0⟩⟩

/-- A running application with the single screen `halfScreen`, which is also
the primary screen. -/
def oneScreenEnv : Env :=
  ⟨some sampleApp, some halfScreen, [halfScreen]⟩

/-! ## Conversion and lookup lemmas -/

theorem toInt_of_nonneg {d : ℚ} (h : 0 ≤ d) : toInt d = ⌊d⌋ := by
  unfold toInt
  rw [Rat.floor_def]
  exact Int.tdiv_eq_ediv (Rat.num_nonneg.mpr h) (Int.ofNat_nonneg _)

theorem qRound_of_nonneg {d : ℚ} (h : 0 ≤ d) : qRound d = ⌊d + 1 / 2⌋ := by
  unfold qRound
  rw [if_pos h]
  exact toInt_of_nonneg (by linarith)

/-- For a non-negative argument `qRound` is the integer `n` with
`n - 1/2 ≤ d < n + 1/2`: the nearest integer, a half rounded up. -/
theorem qRound_nearest {d : ℚ} (h : 0 ≤ d) :
    ((qRound d : Int) : ℚ) - 1 / 2 ≤ d ∧ d < ((qRound d : Int) : ℚ) + 1 / 2 := by
  rw [qRound_of_nonneg h]
  have h1 := Int.floor_le (d + 1 / 2)
  have h2 := Int.lt_floor_add_one (d + 1 / 2)
  constructor <;> linarith

theorem QList.index_isSome {α : Type} (l : List α) (i : Int)
    (h0 : 0 ≤ i) (h1 : i < l.length) : ∃ x, QList.index l i = some x := by
  have hlt : i.toNat < l.length := by omega
  refine ⟨l[i.toNat], ?_⟩
  unfold QList.index
  rw [if_pos ⟨h0, h1⟩]
  exact List.getElem?_eq_getElem hlt

theorem QList.index_eq_none {α : Type} (l : List α) (i : Int)
    (h : i < 0 ∨ (l.length : Int) ≤ i) : QList.index l i = none := by
  unfold QList.index
  rw [if_neg]
  omega

/-- The indexed path of `appDpiX` at a valid index: the screen's horizontal
DPI with its fractional part discarded. -/
theorem appDpiX_indexed (env : Env) (i : Nat) (scr : QScreen)
    (h : env.screens[i]? = some scr) :
    appDpiX env i = some (toInt scr.logicalDotsPerInchX) := by
  have hlt : i < env.screens.length := by
    by_contra hge
    rw [List.getElem?_eq_none (by omega)] at h
    exact Option.noConfusion h
  have hne : ¬ ((i : Int) = -1) := by omega
  have hrc : appDpiX.rangeCheck env.screens i = false := by
    simp only [appDpiX.rangeCheck, decide_eq_false_iff_not]
    omega
  have hix : QList.index env.screens (i : Int) = some scr := by
    unfold QList.index
    rw [if_pos ⟨by omega, by omega⟩, Int.toNat_ofNat]
    exact h
  simp only [appDpiX, if_neg hne, hrc, hix, Option.map_some', Bool.false_eq_true, if_false]

/-- The indexed path of `appDpiY` at a valid index: the screen's vertical
DPI with its fractional part discarded. -/
theorem appDpiY_indexed (env : Env) (i : Nat) (scr : QScreen)
    (h : env.screens[i]? = some scr) :
    appDpiY env i = some (toInt scr.logicalDotsPerInchY) := by
  have hlt : i < env.screens.length := by
    by_contra hge
    rw [List.getElem?_eq_none (by omega)] at h
    exact Option.noConfusion h
  have hne : ¬ ((i : Int) = -1) := by omega
  have hrc : appDpiY.rangeCheck env.screens i = false := by
    simp only [appDpiY.rangeCheck, decide_eq_false_iff_not]
    omega
  have hix : QList.index env.screens (i : Int) = some scr := by
    unfold QList.index
    rw [if_pos ⟨by omega, by omega⟩, Int.toNat_ofNat]
    exact h
  simp only [appDpiY, if_neg hne, hrc, hix, Option.map_some', Bool.false_eq_true, if_false]

/-- At the index equal to the number of screens `appDpiY` passes its range
check and indexes the list one past its end. -/
theorem appDpiY_at_size (env : Env) :
    appDpiY env env.screens.length = none := by
  have hne : ¬ ((env.screens.length : Int) = -1) := by omega
  have hrc : appDpiY.rangeCheck env.screens env.screens.length = false := by
    simp [appDpiY.rangeCheck]
  have hix := QList.index_eq_none env.screens (env.screens.length : Int) (Or.inr le_rfl)
  simp only [appDpiY, if_neg hne, hrc, hix, Option.map_none', Bool.false_eq_true, if_false]

/-! ## Out-of-range indices -/

/-- C1, evaluated on the code: with one screen and the index 1 (the number of
screens), and with no screen and the index 0, the range check of `appDpiY`
does not fire and the lookup is out of bounds; the result is not 0. -/
theorem appDpiY_index_eq_size_faults :
    appDpiY.rangeCheck oneScreenEnv.screens 1 = false ∧
    appDpiY oneScreenEnv 1 = none ∧
    appDpiY noAppEnv 0 = none ∧
    appDpiX oneScreenEnv 1 = some 0 := by
  decide

/-- C2: for every index greater than or equal to the number of screens,
`appDpiX` returns 0. -/
theorem appDpiX_out_of_range (env : Env) (screen : Int)
    (h : screen ≥ (env.screens.length : Int)) : appDpiX env screen = some 0 := by
  have hne : ¬ (screen = -1) := by omega
  have hrc : appDpiX.rangeCheck env.screens screen = true := by
    simp only [appDpiX.rangeCheck, decide_eq_true_eq]
    exact h
  simp only [appDpiX, if_neg hne, hrc, if_true]

theorem appDpiX_out_of_range_witness :
    ((1 : Int) ≥ (oneScreenEnv.screens.length : Int)) ∧ appDpiX oneScreenEnv 1 = some 0 :=
  ⟨by decide, appDpiX_out_of_range oneScreenEnv 1 (by decide)⟩

/-! ## Rounding on the indexed path -/

/-- C3, evaluated on the code: for the screen at index 0 with DPI 96.5 the
indexed path of `appDpiX` and `appDpiY` returns 96, the truncated value, while
the nearest integer with `qRound`'s rounding is 97. -/
theorem appDpi_indexed_truncates :
    oneScreenEnv.screens[0]? = some halfScreen ∧
    appDpiX oneScreenEnv 0 = some 96 ∧
    appDpiY oneScreenEnv 0 = some 96 ∧
    qRound halfScreen.logicalDotsPerInchX = 97 ∧
    qRound halfScreen.logicalDotsPerInchY = 97 := by
  refine ⟨rfl, ?_, ?_, ?_, ?_⟩
  · refine (appDpiX_indexed oneScreenEnv 0 halfScreen rfl).trans ?_
    norm_num [halfScreen, toInt]
    decide
  · refine (appDpiY_indexed oneScreenEnv 0 halfScreen rfl).trans ?_
    norm_num [halfScreen, toInt]
    decide
  · norm_num [halfScreen, qRound, toInt]
  · norm_num [halfScreen, qRound, toInt]

/-! ## No application instance -/

/-- C4: with a null application pointer, no primary screen and an empty
screen list, `appDpiX(-1)` and `appDpiY(-1)` return 75, `appRootWindow(s)` (for
every `s`), `appScreen()`, `appTime()` and `appUserTime()` return 0, and
`display()` and `connection()` return the null handle. -/
theorem no_application_defaults (env : Env) (happ : env.qApp = none)
    (hprimary : env.primaryScreen = none) (_hscreens : env.screens = []) :
    appDpiX env (-1) = some 75 ∧ appDpiY env (-1) = some 75 ∧
    (∀ s : Int, appRootWindow env s = some 0) ∧ appScreen env = 0 ∧
    (∀ invoked : List MethodCall, appTime ⟨env, invoked⟩ = 0 ∧ appUserTime ⟨env, invoked⟩ = 0) ∧
    display env = 0 ∧ connection env = 0 := by
  refine ⟨?_, ?_, ?_, ?_, ?_, ?_, ?_⟩
  · simp only [appDpiX, hprimary, if_true]
  · simp only [appDpiY, hprimary, if_true]
  · intro s
    simp only [appRootWindow, happ]
  · simp only [appScreen, happ]
  · intro invoked
    exact ⟨rfl, rfl⟩
  · simp only [display, happ]
  · simp only [connection, happ]

theorem no_application_defaults_witness :
    noAppEnv.qApp = none ∧ noAppEnv.primaryScreen = none ∧ noAppEnv.screens = [] ∧
    appDpiX noAppEnv (-1) = some 75 ∧ appDpiY noAppEnv (-1) = some 75 ∧
    (∀ s : Int, appRootWindow noAppEnv s = some 0) ∧ appScreen noAppEnv = 0 ∧
    (∀ invoked : List MethodCall,
      appTime ⟨noAppEnv, invoked⟩ = 0 ∧ appUserTime ⟨noAppEnv, invoked⟩ = 0) ∧
    display noAppEnv = 0 ∧ connection noAppEnv = 0 :=
  ⟨rfl, rfl, rfl, no_application_defaults noAppEnv rfl rfl rfl⟩

/-! ## The user-time setter -/

/-- C5 as stated fails: for the 64-bit value `2 ^ 32` the single invocation of
`updateNetWmUserTime` carries the timestamp 0, not `2 ^ 32`. -/
theorem setAppUserTime_truncates_timestamp :
    (2 : Nat) ^ 32 < 2 ^ 64 ∧
    (setAppUserTime ⟨oneScreenEnv, []⟩ (2 ^ 32)).invoked =
      [⟨"updateNetWmUserTime", some sampleWindow, 0⟩] ∧
    (setAppUserTime ⟨oneScreenEnv, []⟩ (2 ^ 32)).invoked ≠
      [⟨"updateNetWmUserTime", some sampleWindow, 2 ^ 32⟩] := by
  decide

/-- C5, amended: when an application exists, `setAppUserTime(t)` adds exactly
one invocation, of `updateNetWmUserTime`, with the desktop widget's window
handle and the timestamp `t % 2 ^ 32`, and leaves the environment as it was;
the timestamp is `t` itself whenever `t < 2 ^ 32`. This holds for every `t`, so
for every 64-bit value. -/
theorem setAppUserTime_invokes_once (s : State) (app : QApplication) (t : Nat)
    (happ : s.env.qApp = some app) :
    (setAppUserTime s t).invoked =
      s.invoked ++ [⟨"updateNetWmUserTime", app.desktop.windowHandle, t % 2 ^ 32⟩] ∧
    (setAppUserTime s t).env = s.env ∧
    (t < 2 ^ 32 → (setAppUserTime s t).invoked =
      s.invoked ++ [⟨"updateNetWmUserTime", app.desktop.windowHandle, t⟩]) := by
  have hrun : setAppUserTime s t =
      ⟨s.env, s.invoked ++ [⟨"updateNetWmUserTime", app.desktop.windowHandle, t % 2 ^ 32⟩]⟩ := by
    simp only [setAppUserTime, happ]
  refine ⟨by rw [hrun], by rw [hrun], ?_⟩
  intro ht
  rw [hrun, Nat.mod_eq_of_lt ht]

theorem setAppUserTime_invokes_once_witness :
    (setAppUserTime ⟨oneScreenEnv, []⟩ (2 ^ 32 + 7)).invoked =
      [] ++ [⟨"updateNetWmUserTime", some sampleWindow, (2 ^ 32 + 7) % 2 ^ 32⟩] ∧
    (setAppUserTime ⟨oneScreenEnv, []⟩ (2 ^ 32 + 7)).env = oneScreenEnv ∧
    ((2 ^ 32 + 7 < 2 ^ 32) → (setAppUserTime ⟨oneScreenEnv, []⟩ (2 ^ 32 + 7)).invoked =
      [] ++ [⟨"updateNetWmUserTime", some sampleWindow, 2 ^ 32 + 7⟩]) :=
  setAppUserTime_invokes_once ⟨oneScreenEnv, []⟩ sampleApp (2 ^ 32 + 7) rfl

/-! ## The root window -/

/-- C6: `appRootWindow` gives the same result for any two screen arguments;
the result is 0 when no application exists and otherwise the window id of the
desktop widget's window handle (a null handle cannot be dereferenced). -/
theorem appRootWindow_ignores_screen (env : Env) (s1 s2 : Int) :
    appRootWindow env s1 = appRootWindow env s2 ∧
    (env.qApp = none → appRootWindow env s1 = some 0) ∧
    (∀ app : QApplication, env.qApp = some app →
      appRootWindow env s1 = app.desktop.windowHandle.map fun w => w.winId) := by
  refine ⟨rfl, ?_, ?_⟩
  · intro happ
    simp only [appRootWindow, happ]
  · intro app happ
    simp only [appRootWindow, happ]

theorem appRootWindow_ignores_screen_witness :
    appRootWindow oneScreenEnv 0 = appRootWindow oneScreenEnv 3 ∧
    appRootWindow oneScreenEnv 0 = some 610 ∧
    appRootWindow noAppEnv 0 = some 0 :=
  ⟨(appRootWindow_ignores_screen oneScreenEnv 0 3).1,
   (appRootWindow_ignores_screen oneScreenEnv 0 3).2.2 sampleApp rfl,
   (appRootWindow_ignores_screen noAppEnv 0 3).2.1 rfl⟩

/-! ## The sentinel index -/

/-- C7: for the index -1, `appDpiX` and `appDpiY` return 75 when there is no
primary screen; otherwise they return `qRound` of the primary screen's
horizontal (vertical) DPI, which for a non-negative DPI `d` is the integer `n`
with `n - 1/2 ≤ d < n + 1/2`: the nearest integer, a half rounded up. -/
theorem appDpi_sentinel (env : Env) :
    (env.primaryScreen = none →
      appDpiX env (-1) = some 75 ∧ appDpiY env (-1) = some 75) ∧
    (∀ scr : QScreen, env.primaryScreen = some scr →
      (0 ≤ scr.logicalDotsPerInchX →
        ∃ n : Int, appDpiX env (-1) = some n ∧
          (n : ℚ) - 1 / 2 ≤ scr.logicalDotsPerInchX ∧
          scr.logicalDotsPerInchX < (n : ℚ) + 1 / 2) ∧
      (0 ≤ scr.logicalDotsPerInchY →
        ∃ n : Int, appDpiY env (-1) = some n ∧
          (n : ℚ) - 1 / 2 ≤ scr.logicalDotsPerInchY ∧
          scr.logicalDotsPerInchY < (n : ℚ) + 1 / 2)) := by
  refine ⟨?_, ?_⟩
  · intro hprimary
    constructor
    · simp only [appDpiX, hprimary, if_true]
    · simp only [appDpiY, hprimary, if_true]
  · intro scr hprimary
    constructor
    · intro hx
      refine ⟨qRound scr.logicalDotsPerInchX, ?_, qRound_nearest hx⟩
      simp only [appDpiX, hprimary, if_true]
    · intro hy
      refine ⟨qRound scr.logicalDotsPerInchY, ?_, qRound_nearest hy⟩
      simp only [appDpiY, hprimary, if_true]

theorem appDpi_sentinel_witness :
    (appDpiX noAppEnv (-1) = some 75 ∧ appDpiY noAppEnv (-1) = some 75) ∧
    (∃ n : Int, appDpiX oneScreenEnv (-1) = some n ∧
      (n : ℚ) - 1 / 2 ≤ halfScreen.logicalDotsPerInchX ∧
      halfScreen.logicalDotsPerInchX < (n : ℚ) + 1 / 2) :=
  ⟨(appDpi_sentinel noAppEnv).1 rfl,
   ((appDpi_sentinel oneScreenEnv).2 halfScreen rfl).1 (by norm_num [halfScreen])⟩

/-! ## The timestamp stubs -/

/-- C8: after any finite sequence of `setAppTime` and `setAppUserTime` calls,
from any state, `appTime()` and `appUserTime()` return 0; and `setAppTime`
returns the state it was given, whatever the value. -/
theorem timestamp_getters_are_stubs (s : State) (calls : List SetterCall) :
    appTime (runCalls s calls) = 0 ∧ appUserTime (runCalls s calls) = 0 ∧
    (∀ t : Nat, setAppTime s t = s) ∧
    (∀ t : Nat, runCalls s (calls ++ [SetterCall.setAppTime t]) = runCalls s calls) := by
  refine ⟨rfl, rfl, fun _ => rfl, ?_⟩
  intro t
  simp only [runCalls, List.foldl_append, List.foldl_cons, List.foldl_nil, SetterCall.run,
    setAppTime]

/-! ## Reaching the list lookup -/

/-- C9 as stated fails: the index -2 is not the sentinel, passes the range
check of `appDpiX`, and is not a valid position of the one-element screen list;
the lookup is out of bounds. -/
theorem appDpiX_negative_index_reaches_lookup :
    (-2 : Int) ≠ -1 ∧
    appDpiX.rangeCheck oneScreenEnv.screens (-2) = false ∧
    ¬ (0 ≤ (-2 : Int) ∧ (-2 : Int) < (oneScreenEnv.screens.length : Int)) ∧
    QList.index oneScreenEnv.screens (-2) = none ∧
    appDpiX oneScreenEnv (-2) = none := by
  decide

/-- C9, amended: for a non-negative index, whenever the range check of
`appDpiX` does not return 0 the index is a valid position of the screen list and
the lookup succeeds; the same holds for `appDpiY` at every non-negative index
other than the number of screens. -/
theorem lookup_index_valid_of_nonneg (env : Env) (screen : Int) (h0 : 0 ≤ screen) :
    (appDpiX.rangeCheck env.screens screen = false →
      (0 ≤ screen ∧ screen < (env.screens.length : Int)) ∧
      (QList.index env.screens screen).isSome = true ∧
      (appDpiX env screen).isSome = true) ∧
    (screen ≠ (env.screens.length : Int) →
      appDpiY.rangeCheck env.screens screen = false →
      (0 ≤ screen ∧ screen < (env.screens.length : Int)) ∧
      (QList.index env.screens screen).isSome = true ∧
      (appDpiY env screen).isSome = true) := by
  have hne : ¬ (screen = -1) := by omega
  constructor
  · intro hrc
    have hlt : screen < (env.screens.length : Int) := by
      simp only [appDpiX.rangeCheck, decide_eq_false_iff_not] at hrc
      omega
    obtain ⟨x, hx⟩ := QList.index_isSome env.screens screen h0 hlt
    refine ⟨⟨h0, hlt⟩, by rw [hx]; rfl, ?_⟩
    simp only [appDpiX, if_neg hne, hrc, hx, Option.map_some', Bool.false_eq_true, if_false,
      Option.isSome_some]
  · intro hsize hrc
    have hlt : screen < (env.screens.length : Int) := by
      simp only [appDpiY.rangeCheck, decide_eq_false_iff_not] at hrc
      omega
    obtain ⟨x, hx⟩ := QList.index_isSome env.screens screen h0 hlt
    refine ⟨⟨h0, hlt⟩, by rw [hx]; rfl, ?_⟩
    simp only [appDpiY, if_neg hne, hrc, hx, Option.map_some', Bool.false_eq_true, if_false,
      Option.isSome_some]

theorem lookup_index_valid_of_nonneg_witness :
    (0 : Int) ≤ 0 ∧
    (appDpiX.rangeCheck oneScreenEnv.screens 0 = false →
      (0 ≤ (0 : Int) ∧ (0 : Int) < (oneScreenEnv.screens.length : Int)) ∧
      (QList.index oneScreenEnv.screens 0).isSome = true ∧
      (appDpiX oneScreenEnv 0).isSome = true) ∧
    ((0 : Int) ≠ (oneScreenEnv.screens.length : Int) →
      appDpiY.rangeCheck oneScreenEnv.screens 0 = false →
      (0 ≤ (0 : Int) ∧ (0 : Int) < (oneScreenEnv.screens.length : Int)) ∧
      (QList.index oneScreenEnv.screens 0).isSome = true ∧
      (appDpiY oneScreenEnv 0).isSome = true) :=
  ⟨le_refl 0, lookup_index_valid_of_nonneg oneScreenEnv 0 (le_refl 0)⟩

/-! ## Sentinel path against indexed path -/

/-- C10, evaluated on the code: the primary screen is at position 0 of the
screen list and has the non-negative DPI 96.5; the sentinel path returns 97
and the indexed path returns 96, for `appDpiX` and for `appDpiY`. -/
theorem sentinel_and_indexed_paths_differ :
    oneScreenEnv.screens[0]? = oneScreenEnv.primaryScreen ∧
    (0 : ℚ) ≤ halfScreen.logicalDotsPerInchX ∧
    (0 : ℚ) ≤ halfScreen.logicalDotsPerInchY ∧
    appDpiX oneScreenEnv (-1) = some 97 ∧ appDpiX oneScreenEnv 0 = some 96 ∧
    appDpiY oneScreenEnv (-1) = some 97 ∧ appDpiY oneScreenEnv 0 = some 96 := by
  refine ⟨rfl, by norm_num [halfScreen], by norm_num [halfScreen], ?_, ?_, ?_, ?_⟩
  · norm_num [appDpiX, oneScreenEnv, halfScreen, qRound, toInt]
  · refine (appDpiX_indexed oneScreenEnv 0 halfScreen rfl).trans ?_
    norm_num [halfScreen, toInt]
    decide
  · norm_num [appDpiY, oneScreenEnv, halfScreen, qRound, toInt]
  · refine (appDpiY_indexed oneScreenEnv 0 halfScreen rfl).trans ?_
    norm_num [halfScreen, toInt]
    decide

end QX11Info
